import Mathlib

/-!
Shallow embedding of the subscription/token/gamification core of the
Telegram channel-administration bot (services `subscription_service.py`,
`config_service.py`, `channel_service.py`, `gamification_service.py`).

The relational store is modelled as an explicit `DBState` record of row
lists; each async service method becomes a pure function from the state
(plus the values the code reads from the clock, uuid generator and
platform API) to a result and an updated state.  Timestamps are UTC
seconds as integers; SQL `SELECT ... .first()` becomes `List.find?`, and
in-place ORM row mutation becomes `updateFirst` on the row list.
-/

namespace SubBot

/-- Replace the first element satisfying `p` by its image under `f`;
models mutating the single ORM row returned by a `.first()` query. -/
def updateFirst (p : α → Bool) (f : α → α) : List α → List α
  | [] => []
  | x :: xs => if p x then f x :: xs else x :: updateFirst p f xs

/-- Row of `subscription_tiers` (`SubscriptionTier` in `models.py`). -/
structure SubscriptionTier where
  id : Int
  name : String
  durationDays : Int
  priceUsd : ℚ
  isActive : Bool
deriving Repr, DecidableEq

/-- Row of `invitation_tokens` (`InvitationToken` in `models.py`). -/
structure InvitationToken where
  id : Int
  token : String
  generatedBy : Int
  createdAt : Int
  tierId : Int
  used : Bool
  usedBy : Option Int
  usedAt : Option Int
deriving Repr, DecidableEq

/-- Row of `user_subscriptions` (`UserSubscription` in `models.py`). -/
structure UserSubscription where
  userId : Int
  role : String
  joinDate : Int
  expiryDate : Option Int
  status : String
  tokenId : Option Int
  reminderSent : Bool
deriving Repr, DecidableEq

/-- Row of `free_channel_requests` (`FreeChannelRequest` in `models.py`),
together with the `approved` and `processed_date` attributes that
`approve_request` assigns on the instance. -/
structure FreeChannelRequest where
  id : Int
  userId : Int
  requestDate : Int
  processed : Bool
  approved : Bool
  processedDate : Option Int
deriving Repr, DecidableEq

/-- Row of `gamification_ranks` (`Rank` in `models.py`). -/
structure Rank where
  id : Int
  name : String
  minPoints : Int
  rewardVipDays : Int
  rewardContentPackId : Option Int
deriving Repr, DecidableEq

/-- Row of `reward_content_packs`. -/
structure RewardContentPack where
  id : Int
  name : String
deriving Repr, DecidableEq

/-- Row of `reward_content_files`. -/
structure RewardContentFile where
  id : Int
  packId : Int
  fileId : String
  mediaType : String
deriving Repr, DecidableEq

/-- Row of `gamification_profiles` as the ORM maps it
(`GamificationProfile`, `models.py:119-130`): only `user_id`, `points`,
`current_rank_id` and `last_interaction_at` are mapped attributes.  The
`init_db.py` migration adds a `last_daily_claim` column to the table but
never to the mapped class, and nothing maps `referred_by_id` or
`referrals_count` at all, so reading those names on an instance raises
`AttributeError` and passing them to the constructor raises `TypeError`
(plain `DeclarativeBase`, default constructor). -/
structure GamificationProfile where
  userId : Int
  points : Int
  currentRankId : Option Int
  lastInteractionAt : Int
deriving Repr, DecidableEq

/-- The singleton `bot_config` row (`BotConfig` in `models.py`),
restricted to the fields the embedded operations read. -/
structure BotConfig where
  vipChannelId : Option String
  freeChannelId : Option String
  waitTimeMinutes : Int
deriving Repr, DecidableEq

/-- The relational store: one list of rows per table, plus the config
row (`ConfigService.get_bot_config` lazily creates it, so the embedding
treats it as always present). -/
structure DBState where
  config : BotConfig
  tiers : List SubscriptionTier
  tokens : List InvitationToken
  subscriptions : List UserSubscription
  requests : List FreeChannelRequest
  ranks : List Rank
  packs : List RewardContentPack
  files : List RewardContentFile
  profiles : List GamificationProfile
deriving Repr, DecidableEq

/-- Seconds in a day; `timedelta(days=d)` becomes `d * secondsPerDay`. -/
def secondsPerDay : Int := 86400

/-- Python truthiness of an optional channel-id string:
`if not config.vip_channel_id` is false for `None` and for `""`. -/
def configuredChannel : Option String → Bool
  | none => false
  | some c => !(c == "")

/-- `ConfigService.get_tier_by_id`: `select(SubscriptionTier).filter_by(id=tier_id)`
then `.first()`.  Note the query does not filter on `is_active`. -/
def getTierById (s : DBState) (tierId : Int) : Option SubscriptionTier :=
  s.tiers.find? (fun t => t.id == tierId)

/-- `SubscriptionService.validate_token`: select the token by exact string
with `used == False`, `.first()`. -/
def validateToken (s : DBState) (tokenStr : String) : Option InvitationToken :=
  s.tokens.find? (fun t => t.token == tokenStr && !t.used)

/-- Result of `SubscriptionService.redeem_token`: the returned dict is
either `{"success": True, "tier": tier}` or `{"success": False, "error": msg}`. -/
inductive RedeemResult where
  | ok (tier : SubscriptionTier)
  | err (msg : String)
deriving Repr, DecidableEq

/-- `SubscriptionService.redeem_token(session, user_id, token_str)`.
`now` stands for the value of `datetime.now(timezone.utc)` during the
call.  The code first validates the token (unused, exact string match),
then resolves its tier via `get_tier_by_id`, marks the token used, and
either extends the user's existing `UserSubscription` row from
`max(now, existing_expiry or now)` or inserts a fresh row with
role "vip" / status "active" and expiry `now + duration`. -/
def redeemToken (s : DBState) (userId : Int) (tokenStr : String) (now : Int) :
    RedeemResult × DBState :=
  match validateToken s tokenStr with
  | none => (.err "Token no válido o ya ha sido usado", s)
  | some token =>
    match getTierById s token.tierId with
    | none => (.err "La tarifa de suscripción asociada a este token ya no existe.", s)
    | some tier =>
      let durationDays := tier.durationDays
      let tokens1 := updateFirst (fun t => t.token == tokenStr && !t.used)
        (fun t => { t with used := true, usedBy := some userId, usedAt := some now })
        s.tokens
      match s.subscriptions.find? (fun sub => sub.userId == userId) with
      | some sub =>
        let startDate := max now (sub.expiryDate.getD now)
        let subs1 := updateFirst (fun x => x.userId == userId)
          (fun x => { x with
            expiryDate := some (startDate + durationDays * secondsPerDay),
            status := "active", role := "vip", tokenId := some token.id })
          s.subscriptions
        (.ok tier, { s with tokens := tokens1, subscriptions := subs1 })
      | none =>
        let newSub : UserSubscription :=
          { userId := userId, role := "vip", joinDate := now,
            expiryDate := some (now + durationDays * secondsPerDay),
            status := "active", tokenId := some token.id, reminderSent := false }
        (.ok tier, { s with tokens := tokens1,
                            subscriptions := s.subscriptions ++ [newSub] })

/-- Result of `SubscriptionService.generate_vip_token`: the deep link on
success, the message of the raised `SubscriptionError` on failure. -/
inductive GenerateResult where
  | ok (link : String)
  | err (msg : String)
deriving Repr, DecidableEq

/-- `SubscriptionService.generate_vip_token(session, admin_id, tier_id, bot)`.
`tokenStr`/`tokenId` stand for the generated `uuid4` string and the
autoincrement id; `now` for the row's `created_at` default.  The only
guard is `get_tier_by_id` returning a row: a tier with `is_active=False`
still resolves and a token is issued for it. -/
def generateVipToken (s : DBState) (adminId tierId : Int) (tokenStr : String)
    (tokenId : Int) (now : Int) (botUsername : String) :
    GenerateResult × DBState :=
  match getTierById s tierId with
  | none =>
    (.err ("Subscription tier with ID " ++ toString tierId ++ " not found."), s)
  | some _ =>
    let token : InvitationToken :=
      { id := tokenId, token := tokenStr, generatedBy := adminId,
        createdAt := now, tierId := tierId, used := false,
        usedBy := none, usedAt := none }
    (.ok ("https://t.me/" ++ botUsername ++ "?start=" ++ tokenStr),
     { s with tokens := s.tokens ++ [token] })

/-- The predicate of the active-VIP query in `revoke_vip_access` (and
`get_active_vip_subscription`): role "vip", status "active",
`expiry_date > now` (a NULL expiry never satisfies the SQL comparison). -/
def isActiveVip (now : Int) (sub : UserSubscription) : Bool :=
  sub.role == "vip" && sub.status == "active" &&
  (match sub.expiryDate with
   | some e => now < e
   | none => false)

/-- The `{"success": ..., "error"/"message": ...}` dictionaries that
`revoke_vip_access` returns. -/
structure RevokeResult where
  success : Bool
  error : Option String
  message : Option String
deriving Repr, DecidableEq

/-- `SubscriptionService.revoke_vip_access(user_id, bot, session)`.
Checks the VIP channel id first (Python truthiness), then looks up an
active unexpired VIP row; if found, bans the member (platform failures
tolerated) and sets status "revoked" / role "free". -/
def revokeVipAccess (s : DBState) (userId : Int) (now : Int) :
    RevokeResult × DBState :=
  if configuredChannel s.config.vipChannelId = false then
    ({ success := false, error := some "VIP channel ID not configured",
       message := none }, s)
  else
    match s.subscriptions.find? (fun sub => sub.userId == userId && isActiveVip now sub) with
    | none =>
      ({ success := false,
         error := some "User does not have an active VIP subscription",
         message := none }, s)
    | some _ =>
      let subs1 := updateFirst (fun sub => sub.userId == userId && isActiveVip now sub)
        (fun sub => { sub with status := "revoked", role := "free" })
        s.subscriptions
      ({ success := true, error := none,
         message := some ("VIP access revoked for user " ++ toString userId) },
       { s with subscriptions := subs1 })

/-- Python's `round` on an exact rational value: round half to even. -/
def pythonRound (q : ℚ) : Int :=
  let f : Int := ⌊q⌋
  let frac : ℚ := q - f
  if frac < 1 / 2 then f
  else if 1 / 2 < frac then f + 1
  else if f % 2 == 0 then f else f + 1

/-- Round-half-to-even of `a / 60` computed in integer arithmetic, so
that witnesses can evaluate it; `roundDiv60_eq_pythonRound` proves it
agrees with `pythonRound` of the exact quotient. -/
def roundDiv60 (a : Int) : Int :=
  let f := a / 60
  let r := a % 60
  if r < 30 then f
  else if 30 < r then f + 1
  else if f % 2 == 0 then f else f + 1

/-- Result dictionary of `ChannelManagementService.request_free_access`. -/
inductive FreeAccessResult where
  | alreadyRequested (remainingMinutes : Int) (waitMinutes : Int)
  | queued (waitMinutes : Int)
deriving Repr, DecidableEq

/-- The pending-request query of `request_free_access`: first row for the
user with `processed == False`. -/
def pendingFor (s : DBState) (userId : Int) : Option FreeChannelRequest :=
  s.requests.find? (fun r => r.userId == userId && !r.processed)

/-- `ChannelManagementService.request_free_access(session, user_id)`.
With a pending row: elapsed minutes are `total_seconds()/60`, the reply
carries `round(max(0, wait_minutes - elapsed))` and no row is written;
the rounded quotient is computed here as `roundDiv60` of
`max 0 (60*wait - elapsed_seconds)`, which
`requestFreeAccess_remaining_eq` proves equal to the code's
`round(max(0, wait - elapsed_seconds/60))`.  Without a pending row a
fresh row (id `newId`, request date `now`) is inserted and the reply is
"queued" with the configured wait time. -/
def requestFreeAccess (s : DBState) (userId : Int) (now : Int) (newId : Int) :
    FreeAccessResult × DBState :=
  let wait := s.config.waitTimeMinutes
  match pendingFor s userId with
  | some req =>
    let elapsedSeconds : Int := now - req.requestDate
    (.alreadyRequested (roundDiv60 (max 0 (60 * wait - elapsedSeconds))) wait, s)
  | none =>
    let newReq : FreeChannelRequest :=
      { id := newId, userId := userId, requestDate := now,
        processed := false, approved := false, processedDate := none }
    (.queued wait, { s with requests := s.requests ++ [newReq] })

/-- Result dictionary of `ChannelManagementService.approve_request`. -/
inductive ApproveResult where
  | ok (msg : String)
  | err (msg : String)
deriving Repr, DecidableEq

/-- The row mutation `approve_request` performs on the fetched request:
`processed = True`, `approved = True`, `processed_date = now`. -/
def markProcessed (requestId now : Int) (l : List FreeChannelRequest) :
    List FreeChannelRequest :=
  updateFirst (fun r => r.id == requestId && !r.processed)
    (fun r =>
      { r with processed := true, approved := true, processedDate := some now })
    l

/-- `ChannelManagementService.approve_request(request_id, session, bot)`.
`sendOk` stands for whether creating the invite link and sending it to
the user succeeded; on any failure the function returns before touching
the row, so the request stays unprocessed.  Only after a successful send
is the row marked `processed`/`approved` with `processed_date = now`. -/
def approveRequest (s : DBState) (requestId : Int) (now : Int) (sendOk : Bool) :
    ApproveResult × DBState :=
  match s.requests.find? (fun r => r.id == requestId && !r.processed) with
  | none => (.err "Request not found or already processed", s)
  | some _ =>
    if configuredChannel s.config.freeChannelId = false then
      (.err "Free channel ID not configured", s)
    else if sendOk = false then
      (.err "No se pudo enviar el enlace de invitación", s)
    else
      (.ok ("Request " ++ toString requestId ++ " approved successfully"),
       { s with requests := markProcessed requestId now s.requests })

/-- A call to `NotificationService.send_notification(user_id, kind, ...)`. -/
structure Notification where
  userId : Int
  kind : String
deriving Repr, DecidableEq

/-- The rank query of `_check_rank_up`:
`select(Rank).where(min_points <= points).order_by(min_points.desc()).limit(1)`,
i.e. the qualifying rank with the largest threshold (first one on the
impossible tie, `min_points` being unique). -/
def bestRank : List Rank → Int → Option Rank
  | [], _ => none
  | r :: rs, pts =>
    let rest := bestRank rs pts
    if r.minPoints ≤ pts then
      match rest with
      | none => some r
      | some b => if b.minPoints < r.minPoints then some r else some b
    else rest

/-- The starting-rank query used when a profile is created:
`select(Rank).where(Rank.min_points == 0)`. -/
def zeroRank (ranks : List Rank) : Option Rank :=
  ranks.find? (fun r => r.minPoints == 0)

/-- `GamificationService._deliver_rewards(user_id, rank, session)`.
When `rank.reward_vip_days > 0` the code calls
`self.subscription_service.add_vip_days(...)`, but `SubscriptionService`
defines no such method anywhere in the repository, so the call raises
`AttributeError` before any days are added or any notification is sent;
the exception propagates to `_check_rank_up`'s generic handler.  The
content-pack branch (reached only when no VIP days are configured) sends
the pack's media and a "pack_reward" notification without changing any
row. -/
def deliverRewards (s : DBState) (userId : Int) (rank : Rank) :
    Except String (List Notification) :=
  if rank.rewardVipDays > 0 then
    .error "AttributeError: SubscriptionService has no attribute add_vip_days"
  else
    match rank.rewardContentPackId with
    | none => .ok []
    | some packId =>
      let contentFiles := s.files.filter (fun f => f.packId == packId)
      if contentFiles.isEmpty then .ok []
      else .ok [{ userId := userId, kind := "pack_reward" }]

/-- `GamificationService._check_rank_up(profile, session)`: pick the best
qualifying rank; if it differs from the stored one, store it, send the
"rank_up" notification, then attempt reward delivery (whose exceptions
are caught here, leaving the rank change in place). -/
def checkRankUp (s : DBState) (profile : GamificationProfile) :
    GamificationProfile × List Notification :=
  match bestRank s.ranks profile.points with
  | none => (profile, [])
  | some newRank =>
    if profile.currentRankId == some newRank.id then (profile, [])
    else
      let profile1 := { profile with currentRankId := some newRank.id }
      let rankUpNotif : Notification := { userId := profile.userId, kind := "rank_up" }
      match deliverRewards s profile.userId newRank with
      | .ok ns => (profile1, rankUpNotif :: ns)
      | .error _ => (profile1, [rankUpNotif])

/-- Overwrite the user's profile row with `q`; models assigning to the
ORM object fetched by the per-user profile query. -/
def setProfile (userId : Int) (q : GamificationProfile)
    (l : List GamificationProfile) : List GamificationProfile :=
  updateFirst (fun p => p.userId == userId) (fun _ => q) l

/-- The in-place update `profile.points += amount;
profile.last_interaction_at = now` of `add_points`. -/
def bumpProfile (profile : GamificationProfile) (amount now : Int) :
    GamificationProfile :=
  { profile with points := profile.points + amount, lastInteractionAt := now }

/-- The profile `add_points`/`claim_daily_reward` create when none
exists: the given points and the zero-point starting rank (these
constructor kwargs are all mapped, so the call succeeds). -/
def freshProfile (s : DBState) (userId amount now : Int) :
    GamificationProfile :=
  { userId := userId, points := amount,
    currentRankId := (zeroRank s.ranks).map (·.id),
    lastInteractionAt := now }

/-- `GamificationService.add_points(user_id, amount, session)`: upsert
the profile (creating it with the zero-point starting rank when absent),
add the amount, stamp the interaction time, then run the rank check and
commit.  The returned list records the notification side effects. -/
def addPoints (s : DBState) (userId : Int) (amount : Int) (now : Int) :
    DBState × List Notification :=
  match s.profiles.find? (fun p => p.userId == userId) with
  | some profile =>
    let stepped := checkRankUp s (bumpProfile profile amount now)
    ({ s with profiles := setProfile userId stepped.1 s.profiles }, stepped.2)
  | none =>
    let stepped := checkRankUp s (freshProfile s userId amount now)
    ({ s with profiles := s.profiles ++ [stepped.1] }, stepped.2)

/-- Zero-padded two-digit rendering used by the `HH:MM:SS` format. -/
def pad2 (n : Int) : String :=
  if n < 10 then "0" ++ toString n else toString n

/-- The `f"{hours:02d}:{minutes:02d}:{seconds:02d}"` formatting of the
remaining cooldown in `claim_daily_reward`. -/
def formatHMS (remainingSeconds : Int) : String :=
  let hours := remainingSeconds / 3600
  let minutes := remainingSeconds % 3600 / 60
  let seconds := remainingSeconds % 60
  pad2 hours ++ ":" ++ pad2 minutes ++ ":" ++ pad2 seconds

/-- Result dictionary of `GamificationService.claim_daily_reward`:
`{'success': True, 'points': .., 'total': ..}`,
`{'success': False, 'remaining': 'HH:MM:SS'}`, or the exception dict
`{'success': False, 'error': ...}`.  Only the last is ever produced:
see `claimDailyReward`. -/
inductive DailyResult where
  | ok (points : Int) (total : Int)
  | cooldown (remaining : String)
  | err (msg : String)
deriving Repr, DecidableEq

/-- `GamificationService.claim_daily_reward(user_id, session)`: the code
creates and commits a profile when none exists
(gamification_service.py:545-559, mapped kwargs only), then reads
`profile.last_daily_claim` (line 565).  The mapped class defines no such
attribute (see `GamificationProfile`), so that read raises
`AttributeError` on every call; the generic handler at line 614 rolls
back and returns the `{'success': False, 'error': ...}` dictionary.
The cooldown check, the point grant and the claim-time stamp that
follow in the source are unreachable. -/
def claimDailyReward (s : DBState) (userId : Int) (now : Int) :
    DailyResult × DBState :=
  let found := s.profiles.find? (fun p => p.userId == userId)
  let s0 : DBState :=
    match found with
    | some _ => s
    | none => { s with profiles := s.profiles ++ [freshProfile s userId 0 now] }
  (.err "AttributeError: GamificationProfile object has no attribute last_daily_claim",
   s0)

/-- The integer-literal fragment of Python's `int(...)`: an optional
sign followed by decimal digits (exotic accepted forms — surrounding
whitespace, underscores, unicode digits — are not modelled; the claims
only involve canonical `ref_<id>` payloads). -/
def digitsToNat? (cs : List Char) : Option Nat :=
  if cs ≠ [] && cs.all (·.isDigit) then
    some (cs.foldl (fun acc c => acc * 10 + (c.toNat - 48)) 0)
  else none

/-- Signed decimal parse over characters, for `int(ref_payload[4:])`. -/
def charsToInt? (cs : List Char) : Option Int :=
  match cs with
  | '-' :: rest => (digitsToNat? rest).map (fun n => -(n : Int))
  | _ => (digitsToNat? cs).map (fun n => (n : Int))

/-- `GamificationService.process_referral(new_user_id, ref_payload, session)`:
parse `ref_<id>` (`startswith("ref_")` is the character-wise test
against the four characters `ref_`, and `int(ref_payload[4:])` is
`charsToInt?` of the remaining characters); reject when the new user
already has a profile, on self-referral, or when the referrer has no
profile.  Past those guards the code constructs
`GamificationProfile(..., referred_by_id=referrer_id, referrals_count=0)`
(gamification_service.py:690-696); those two kwargs are not mapped
attributes, so the constructor raises `TypeError` before anything is
added to the session, the generic handler at line 743 rolls back, and
the call returns `False` having written nothing — on every input. -/
def processReferral (s : DBState) (newUserId : Int) (refPayload : String)
    (now : Int) : Bool × DBState :=
  if !(refPayload.data.take 4 == "ref_".data) then (false, s)
  else
    match charsToInt? (refPayload.data.drop 4) with
    | none => (false, s)
    | some referrerId =>
      match s.profiles.find? (fun p => p.userId == newUserId) with
      | some _ => (false, s)
      | none =>
        if newUserId == referrerId then (false, s)
        else
          match s.profiles.find? (fun p => p.userId == referrerId) with
          | none => (false, s)
          | some _ => (false, s)

/-! ### Generic lemmas about `updateFirst` and `List.find?` -/

theorem mem_updateFirst {p : α → Bool} {f : α → α} {l : List α} {x : α}
    (hx : x ∈ updateFirst p f l) : x ∈ l ∨ ∃ y ∈ l, x = f y := by
  induction l with
  | nil => simp [updateFirst] at hx
  | cons a t ih =>
    by_cases h : p a
    · simp only [updateFirst, h, if_pos, List.mem_cons] at hx
      rcases hx with h1 | h1
      · exact Or.inr ⟨a, List.mem_cons_self a t, h1⟩
      · exact Or.inl (List.mem_cons_of_mem a h1)
    · simp only [updateFirst, h, if_neg, List.mem_cons, Bool.false_eq_true,
        not_false_iff] at hx
      rcases hx with h1 | h1
      · exact Or.inl (h1 ▸ List.mem_cons_self a t)
      · rcases ih h1 with h2 | ⟨y, hy, h3⟩
        · exact Or.inl (List.mem_cons_of_mem a h2)
        · exact Or.inr ⟨y, List.mem_cons_of_mem a hy, h3⟩

theorem find?_updateFirst {p : α → Bool} {f : α → α} {l : List α} {x : α}
    (hfind : l.find? p = some x) (hf : p (f x) = true) :
    (updateFirst p f l).find? p = some (f x) := by
  induction l with
  | nil => simp at hfind
  | cons a t ih =>
    by_cases h : p a
    · rw [List.find?_cons_of_pos _ h] at hfind
      injection hfind with hax
      subst hax
      simp [updateFirst, h, List.find?_cons_of_pos _ hf]
    · rw [List.find?_cons_of_neg _ h] at hfind
      simp [updateFirst, h, List.find?_cons_of_neg _ h, ih hfind]

theorem updated_mem_updateFirst {p : α → Bool} {f : α → α} {l : List α} {x : α}
    (hfind : l.find? p = some x) : f x ∈ updateFirst p f l := by
  induction l with
  | nil => simp at hfind
  | cons a t ih =>
    by_cases h : p a
    · rw [List.find?_cons_of_pos _ h] at hfind
      injection hfind with hax
      subst hax
      simp [updateFirst, h]
    · rw [List.find?_cons_of_neg _ h] at hfind
      simp [updateFirst, h, ih hfind]

theorem find?_append_of_none {p : α → Bool} {l l2 : List α}
    (h : l.find? p = none) : (l ++ l2).find? p = l2.find? p := by
  simp [List.find?_append, h]

/-! ### C1: a token is redeemed at most once -/

/-- Arguments of one `redeem_token` call. -/
structure RedeemCall where
  userId : Int
  tokenStr : String
  now : Int

/-- Fold a sequence of `redeem_token` calls over the store. -/
def redeemMany (s : DBState) : List RedeemCall → DBState
  | [] => s
  | c :: cs => redeemMany (redeemToken s c.userId c.tokenStr c.now).2 cs

theorem validateToken_spec {s : DBState} {t : String} {tok : InvitationToken}
    (h : validateToken s t = some tok) :
    tok ∈ s.tokens ∧ tok.token = t ∧ tok.used = false := by
  have h1 := List.mem_of_find?_eq_some h
  have h2 := List.find?_some h
  simp only [Bool.and_eq_true, beq_iff_eq, Bool.not_eq_true'] at h2
  exact ⟨h1, h2.1, h2.2⟩

/-- After any single `redeem_token` call the token list is either
untouched or the first matching unused token is marked used. -/
theorem redeemToken_tokens_cases (s : DBState) (u : Int) (x : String) (n : Int) :
    (redeemToken s u x n).2.tokens = s.tokens ∨
    (redeemToken s u x n).2.tokens =
      updateFirst (fun tk => tk.token == x && !tk.used)
        (fun tk => { tk with used := true, usedBy := some u, usedAt := some n })
        s.tokens := by
  unfold redeemToken
  split
  · exact Or.inl rfl
  · split
    · exact Or.inl rfl
    · split
      · exact Or.inr rfl
      · exact Or.inr rfl

/-- Redemption never un-marks a used token: if every token carrying the
string `t` is used, that stays true across any `redeem_token` call. -/
theorem redeemToken_preserves_used {s : DBState} {t : String}
    (h : ∀ tok ∈ s.tokens, tok.token = t → tok.used = true)
    (u : Int) (x : String) (n : Int) :
    ∀ tok ∈ (redeemToken s u x n).2.tokens, tok.token = t → tok.used = true := by
  intro tok htok heq
  rcases redeemToken_tokens_cases s u x n with hc | hc
  · exact h tok (hc ▸ htok) heq
  · rw [hc] at htok
    rcases mem_updateFirst htok with h1 | ⟨y, hy, h2⟩
    · exact h tok h1 heq
    · subst h2
      rfl

theorem redeemMany_preserves_used {s : DBState} {t : String}
    (h : ∀ tok ∈ s.tokens, tok.token = t → tok.used = true) :
    ∀ calls : List RedeemCall,
      ∀ tok ∈ (redeemMany s calls).tokens, tok.token = t → tok.used = true := by
  intro calls
  induction calls generalizing s with
  | nil => exact h
  | cons c cs ih =>
    exact ih (redeemToken_preserves_used h c.userId c.tokenStr c.now)

theorem find?_unused_eq_none {l : List InvitationToken} {t : String}
    (h : ∀ tok ∈ l, tok.token = t → tok.used = true) :
    l.find? (fun tok => tok.token == t && !tok.used) = none := by
  rw [List.find?_eq_none]
  intro tok htok
  simp only [Bool.and_eq_true, beq_iff_eq, Bool.not_eq_true', not_and]
  intro heq
  simp [h tok htok heq]

/-- With pairwise-distinct token strings (the DB unique constraint on
`invitation_tokens.token`), marking the first unused match leaves every
token with that string used. -/
theorem updateFirst_marks_all {l : List InvitationToken} {t : String}
    (huniq : l.Pairwise (fun a b => a.token ≠ b.token))
    (g : InvitationToken → InvitationToken)
    (hg : ∀ tok, (g tok).token = tok.token ∧ (g tok).used = true) :
    ∀ x ∈ updateFirst (fun tk => tk.token == t && !tk.used) g l,
      x.token = t → x.used = true := by
  induction l with
  | nil => intro x hx; simp [updateFirst] at hx
  | cons a rest ih =>
    rw [List.pairwise_cons] at huniq
    intro x hx heq
    by_cases h : (a.token == t && !a.used) = true
    · simp only [updateFirst, h, if_pos, List.mem_cons] at hx
      rcases hx with h1 | h1
      · subst h1
        exact (hg a).2
      · exfalso
        simp only [Bool.and_eq_true, beq_iff_eq, Bool.not_eq_true'] at h
        exact huniq.1 x h1 (h.1.trans heq.symm)
    · simp only [updateFirst, h, if_neg, List.mem_cons, Bool.false_eq_true,
        not_false_iff] at hx
      rcases hx with h1 | h1
      · subst h1
        simp only [Bool.and_eq_true, beq_iff_eq, Bool.not_eq_true', not_and] at h
        cases hu : x.used
        · exact absurd hu (by simpa using h heq)
        · rfl
      · exact ih huniq.2 x h1 heq

/-- C1: redemption succeeds at most once per token string.  A successful
`redeem_token` finds the token unused (the `used` flag is `false` before
and `true` after, so it transitions exactly once), and after any further
sequence of `redeem_token` calls every token with that string stays
used, so every later redemption attempt with the same string fails with
the "not found or already used" error. -/
theorem redeem_token_at_most_once
    (s : DBState) (u : Int) (t : String) (now : Int)
    (tier : SubscriptionTier) (s₁ : DBState)
    (huniq : s.tokens.Pairwise (fun a b => a.token ≠ b.token))
    (hsucc : redeemToken s u t now = (.ok tier, s₁)) :
    (∃ tok ∈ s.tokens, tok.token = t ∧ tok.used = false) ∧
    (∀ calls : List RedeemCall, ∀ tok ∈ (redeemMany s₁ calls).tokens,
        tok.token = t → tok.used = true) ∧
    (∀ calls : List RedeemCall, ∀ u2 now2 : Int,
        (redeemToken (redeemMany s₁ calls) u2 t now2).1 =
          .err "Token no válido o ya ha sido usado") := by
  have hmain : (∃ tok ∈ s.tokens, tok.token = t ∧ tok.used = false) ∧
      s₁.tokens =
        updateFirst (fun tk => tk.token == t && !tk.used)
          (fun tk => { tk with used := true, usedBy := some u, usedAt := some now })
          s.tokens := by
    unfold redeemToken at hsucc
    split at hsucc
    · simp at hsucc
    · next token htokval =>
      obtain ⟨hmem, hstr, hunused⟩ := validateToken_spec htokval
      refine ⟨⟨token, hmem, hstr, hunused⟩, ?_⟩
      split at hsucc
      · simp at hsucc
      · split at hsucc
        · simp only [Prod.mk.injEq] at hsucc
          rw [← hsucc.2]
        · simp only [Prod.mk.injEq] at hsucc
          rw [← hsucc.2]
  obtain ⟨hbefore, htokens⟩ := hmain
  have hall : ∀ tok ∈ s₁.tokens, tok.token = t → tok.used = true := by
    rw [htokens]
    exact updateFirst_marks_all huniq _ (fun tok => ⟨rfl, rfl⟩)
  have hmany : ∀ calls : List RedeemCall,
      ∀ tok ∈ (redeemMany s₁ calls).tokens, tok.token = t → tok.used = true :=
    fun calls => redeemMany_preserves_used hall calls
  refine ⟨hbefore, hmany, fun calls u2 now2 => ?_⟩
  have hnone : validateToken (redeemMany s₁ calls) t = none :=
    find?_unused_eq_none (hmany calls)
  unfold redeemToken
  rw [hnone]

/-- The tier of the concrete redemption scenario. -/
def w1Tier : SubscriptionTier :=
  { id := 1, name := "1 Month VIP", durationDays := 30, priceUsd := 10,
    isActive := true }

/-- A store holding one unused token "tok-1" bound to `w1Tier`. -/
def w1State : DBState :=
  { config := { vipChannelId := some "-100", freeChannelId := some "-200",
                waitTimeMinutes := 60 },
    tiers := [w1Tier],
    tokens := [{ id := 1, token := "tok-1", generatedBy := 99, createdAt := 0,
                 tierId := 1, used := false, usedBy := none, usedAt := none }],
    subscriptions := [], requests := [], ranks := [], packs := [], files := [],
    profiles := [] }

/-- The store after user 7 redeems "tok-1" at time 100. -/
def w1After : DBState := (redeemToken w1State 7 "tok-1" 100).2

/-- Witness for C1 at the concrete scenario: the second redemption of
"tok-1" fails with the not-found-or-used error. -/
theorem redeem_token_at_most_once_witness :
    (redeemToken (redeemMany w1After []) 8 "tok-1" 200).1 =
      .err "Token no válido o ya ha sido usado" :=
  (redeem_token_at_most_once w1State 7 "tok-1" 100 w1Tier w1After
    (by decide) (by decide)).2.2 [] 8 200

/-! ### C2: expiry arithmetic of a successful redemption -/

/-- C2: on a successful redemption of a tier with duration D, an
existing subscription row is extended to
`max(now, existing expiry or now) + D`, so with a still-future old
expiry the result is `old_expiry + D`, never `now + D`; with no existing
row a fresh one is created with role "vip", status "active" and expiry
`now + D`. -/
theorem redeem_token_expiry
    (s : DBState) (u : Int) (t : String) (now : Int)
    (tier : SubscriptionTier) (s₁ : DBState)
    (hsucc : redeemToken s u t now = (.ok tier, s₁)) :
    (∀ sub, s.subscriptions.find? (fun x => x.userId == u) = some sub →
      ∃ sub', s₁.subscriptions.find? (fun x => x.userId == u) = some sub' ∧
        sub'.expiryDate = some (max now (sub.expiryDate.getD now)
                                  + tier.durationDays * secondsPerDay) ∧
        sub'.role = "vip" ∧ sub'.status = "active" ∧
        (∀ e, sub.expiryDate = some e → now < e →
          sub'.expiryDate = some (e + tier.durationDays * secondsPerDay) ∧
          sub'.expiryDate ≠ some (now + tier.durationDays * secondsPerDay))) ∧
    (s.subscriptions.find? (fun x => x.userId == u) = none →
      ∃ sub', s₁.subscriptions.find? (fun x => x.userId == u) = some sub' ∧
        sub'.role = "vip" ∧ sub'.status = "active" ∧
        sub'.joinDate = now ∧
        sub'.expiryDate = some (now + tier.durationDays * secondsPerDay)) := by
  unfold redeemToken at hsucc
  split at hsucc
  · simp at hsucc
  · next token htokval =>
    split at hsucc
    · simp at hsucc
    · next tierF htierF =>
      split at hsucc
      · next sub0 hsub0 =>
        simp only [Prod.mk.injEq, RedeemResult.ok.injEq] at hsucc
        obtain ⟨htiereq, hstate⟩ := hsucc
        subst htiereq
        constructor
        · intro sub hsub
          rw [hsub0] at hsub
          injection hsub with hsubeq
          subst hsubeq
          have hfind : s₁.subscriptions.find? (fun x => x.userId == u) =
              some { sub0 with
                     expiryDate := some (max now (sub0.expiryDate.getD now)
                                           + tierF.durationDays * secondsPerDay),
                     status := "active", role := "vip",
                     tokenId := some token.id } := by
            rw [← hstate]
            apply find?_updateFirst hsub0
            simpa using List.find?_some hsub0
          refine ⟨_, hfind, rfl, rfl, rfl, ?_⟩
          intro e he hlt
          rw [he]
          simp only [Option.getD_some]
          rw [max_eq_right (le_of_lt hlt)]
          refine ⟨rfl, ?_⟩
          intro hcontra
          injection hcontra with hc
          exact absurd (add_right_cancel hc) (ne_of_gt hlt)
        · intro hnone
          rw [hsub0] at hnone
          exact absurd hnone (by simp)
      · next hsubnone =>
        simp only [Prod.mk.injEq, RedeemResult.ok.injEq] at hsucc
        obtain ⟨htiereq, hstate⟩ := hsucc
        subst htiereq
        constructor
        · intro sub hsub
          rw [hsubnone] at hsub
          exact absurd hsub (by simp)
        · intro _
          have hfind : s₁.subscriptions.find? (fun x => x.userId == u) =
              some { userId := u, role := "vip", joinDate := now,
                     expiryDate := some (now + tierF.durationDays * secondsPerDay),
                     status := "active", tokenId := some token.id,
                     reminderSent := false } := by
            rw [← hstate]
            dsimp only
            rw [find?_append_of_none hsubnone]
            simp
          exact ⟨_, hfind, rfl, rfl, rfl, rfl⟩

/-- Witness for C2: user 7 already holds a subscription expiring at time
5000 (future of `now = 100`); redeeming the 30-day token moves the
expiry to `5000 + 30*86400`, not to `100 + 30*86400`. -/
def w2State : DBState :=
  { w1State with subscriptions :=
      [{ userId := 7, role := "vip", joinDate := 0, expiryDate := some 5000,
         status := "active", tokenId := none, reminderSent := false }] }

/-- The store after user 7 redeems "tok-1" at time 100 on `w2State`. -/
def w2After : DBState := (redeemToken w2State 7 "tok-1" 100).2

/-- Witness for C2 at the concrete scenario. -/
theorem redeem_token_expiry_witness :
    ∃ sub', w2After.subscriptions.find? (fun x => x.userId == 7) = some sub' ∧
      sub'.expiryDate = some (max 100 ((some (5000:Int)).getD 100)
                                + 30 * secondsPerDay) ∧
      sub'.role = "vip" ∧ sub'.status = "active" ∧
      (∀ e, some (5000:Int) = some e → 100 < e →
        sub'.expiryDate = some (e + 30 * secondsPerDay) ∧
        sub'.expiryDate ≠ some (100 + 30 * secondsPerDay)) :=
  (redeem_token_expiry w2State 7 "tok-1" 100 w1Tier w2After (by decide)).1
    { userId := 7, role := "vip", joinDate := 0, expiryDate := some 5000,
      status := "active", tokenId := none, reminderSent := false }
    (by decide)

/-! ### C4: token issuance and soft-deleted tiers -/

/-- A store whose only tier (id 1) is soft-deleted (`is_active=False`). -/
def w4State : DBState :=
  { config := { vipChannelId := some "-100", freeChannelId := some "-200",
                waitTimeMinutes := 60 },
    tiers := [{ id := 1, name := "Gold", durationDays := 30, priceUsd := 10,
                isActive := false }],
    tokens := [], subscriptions := [], requests := [], ranks := [],
    packs := [], files := [], profiles := [] }

/-- C4 counterexample: every tier of `w4State` is inactive, yet
`generate_vip_token` for tier id 1 succeeds and issues a token, so
issuance is not rejected for a soft-deleted tier. -/
theorem generate_vip_token_inactive_tier_succeeds :
    (∀ tr, tr ∈ w4State.tiers → tr.isActive = false) ∧
    (generateVipToken w4State 42 1 "tok-x" 5 0 "mybot").1 =
      .ok "https://t.me/mybot?start=tok-x" ∧
    (generateVipToken w4State 42 1 "tok-x" 5 0 "mybot").2.tokens =
      [{ id := 5, token := "tok-x", generatedBy := 42, createdAt := 0,
         tierId := 1, used := false, usedBy := none, usedAt := none }] := by
  refine ⟨?_, by decide, by decide⟩
  intro tr htr
  simp only [w4State, List.mem_singleton] at htr
  rw [htr]

/-- C4 amended: issuance fails exactly when the tier id resolves to no
tier row at all (`get_tier_by_id` ignores `is_active`); any resolving
tier, active or soft-deleted, yields a deep link and a fresh unused
token bound to it. -/
theorem generate_vip_token_resolution
    (s : DBState) (adminId tierId : Int) (tokenStr : String) (tokenId now : Int)
    (botUsername : String) :
    (getTierById s tierId = none →
      generateVipToken s adminId tierId tokenStr tokenId now botUsername =
        (.err ("Subscription tier with ID " ++ toString tierId ++ " not found."),
         s)) ∧
    (∀ tier, getTierById s tierId = some tier →
      generateVipToken s adminId tierId tokenStr tokenId now botUsername =
        (.ok ("https://t.me/" ++ botUsername ++ "?start=" ++ tokenStr),
         { s with tokens := s.tokens ++
             [{ id := tokenId, token := tokenStr, generatedBy := adminId,
                createdAt := now, tierId := tierId, used := false,
                usedBy := none, usedAt := none }] })) := by
  constructor
  · intro h
    unfold generateVipToken
    rw [h]
  · intro tier h
    unfold generateVipToken
    rw [h]

/-- Witness for the amended C4 at the soft-deleted tier of `w4State`. -/
theorem generate_vip_token_resolution_witness :
    generateVipToken w4State 42 1 "tok-x" 5 0 "mybot" =
      (.ok ("https://t.me/" ++ "mybot" ++ "?start=" ++ "tok-x"),
       { w4State with tokens := w4State.tokens ++
           [{ id := 5, token := "tok-x", generatedBy := 42, createdAt := 0,
              tierId := 1, used := false, usedBy := none, usedAt := none }] }) :=
  (generate_vip_token_resolution w4State 42 1 "tok-x" 5 0 "mybot").2
    { id := 1, name := "Gold", durationDays := 30, priceUsd := 10,
      isActive := false }
    (by decide)

/-! ### C9: revoking VIP access without an active subscription -/

/-- A store with no configured VIP channel and no subscriptions. -/
def w9State : DBState :=
  { config := { vipChannelId := none, freeChannelId := none,
                waitTimeMinutes := 0 },
    tiers := [], tokens := [], subscriptions := [], requests := [],
    ranks := [], packs := [], files := [], profiles := [] }

/-- C9 counterexample: user 7 has no active VIP subscription (the ledger
is empty), yet because the VIP channel id is unconfigured the call
returns the "VIP channel ID not configured" error dictionary, not
"User does not have an active VIP subscription". -/
theorem revoke_vip_unconfigured_counterexample :
    w9State.subscriptions = [] ∧
    (revokeVipAccess w9State 7 0).1 =
      { success := false, error := some "VIP channel ID not configured",
        message := none } ∧
    (revokeVipAccess w9State 7 0).1.error ≠
      some "User does not have an active VIP subscription" := by decide

/-- C9 amended: provided the VIP channel id is configured (non-empty),
revoking for a user with no active VIP row (role "vip", status "active",
future expiry) returns exactly the no-active-subscription error
dictionary, raises nothing, and leaves the store unchanged. -/
theorem revoke_vip_no_active_subscription
    (s : DBState) (userId now : Int)
    (hcfg : configuredChannel s.config.vipChannelId = true)
    (hno : ∀ sub ∈ s.subscriptions,
        ¬(sub.userId = userId ∧ isActiveVip now sub = true)) :
    revokeVipAccess s userId now =
      ({ success := false,
         error := some "User does not have an active VIP subscription",
         message := none }, s) := by
  have hfind : s.subscriptions.find?
      (fun sub => sub.userId == userId && isActiveVip now sub) = none := by
    rw [List.find?_eq_none]
    intro sub hsub
    simp only [Bool.and_eq_true, beq_iff_eq, not_and]
    intro h1 h2
    exact hno sub hsub ⟨h1, h2⟩
  unfold revokeVipAccess
  rw [hcfg, hfind]
  simp

/-- Witness for the amended C9: configured channel, empty ledger. -/
def w9bState : DBState :=
  { w9State with config := { vipChannelId := some "-100", freeChannelId := none,
                             waitTimeMinutes := 0 } }

/-- Witness for the amended C9 at a concrete store. -/
theorem revoke_vip_no_active_subscription_witness :
    revokeVipAccess w9bState 7 0 =
      ({ success := false,
         error := some "User does not have an active VIP subscription",
         message := none }, w9bState) :=
  revoke_vip_no_active_subscription w9bState 7 0 (by decide) (by decide)

/-! ### C7: the free-access request queue -/

/-- `roundDiv60` is Python's banker-rounding of the exact quotient `a/60`. -/
theorem roundDiv60_eq_pythonRound (a : Int) :
    roundDiv60 a = pythonRound ((a : ℚ) / 60) := by
  have hfloor : ⌊((a:ℚ) / 60)⌋ = a / 60 := by
    have h := Rat.floor_intCast_div_natCast a 60
    norm_num at h
    exact h
  have hdiv : 60 * (a / 60) + a % 60 = a := Int.ediv_add_emod a 60
  have hfrac : (a:ℚ) / 60 - ((a / 60 : Int) : ℚ) = ((a % 60 : Int) : ℚ) / 60 := by
    have hq : ((60 * (a / 60) + a % 60 : Int) : ℚ) = (a:ℚ) := by
      exact_mod_cast congrArg (fun z : Int => (z : ℚ)) hdiv
    push_cast at hq
    field_simp
    linarith
  have h1 : (((a % 60 : Int) : ℚ) / 60 < 1/2) ↔ (a % 60 < 30) := by
    rw [div_lt_div_iff₀ (by norm_num : (0:ℚ) < 60) (by norm_num : (0:ℚ) < 2)]
    constructor
    · intro h
      have : (a % 60) * 2 < 1 * 60 := by exact_mod_cast h
      omega
    · intro h
      have : (a % 60) * 2 < 1 * 60 := by omega
      exact_mod_cast this
  have h2 : (1/2 < ((a % 60 : Int) : ℚ) / 60) ↔ (30 < a % 60) := by
    rw [div_lt_div_iff₀ (by norm_num : (0:ℚ) < 2) (by norm_num : (0:ℚ) < 60)]
    constructor
    · intro h
      have : 1 * 60 < (a % 60) * 2 := by exact_mod_cast h
      omega
    · intro h
      have : 1 * 60 < (a % 60) * 2 := by omega
      exact_mod_cast this
  simp only [pythonRound, roundDiv60, hfloor, hfrac, h1, h2]

/-- `(w:ℚ) - Δ/60` clamped below at 0, expressed over a common
denominator of 60. -/
theorem max_sub_div60 (w d : Int) :
    max 0 ((w:ℚ) - (d:ℚ)/60) = ((max 0 (60 * w - d) : Int) : ℚ) / 60 := by
  have hx : (w:ℚ) - (d:ℚ)/60 = ((60 * w - d : Int):ℚ)/60 := by
    push_cast
    field_simp
    ring
  rw [hx]
  rcases le_total (60 * w - d) 0 with h | h
  · rw [max_eq_left, max_eq_left h]
    · norm_num
    · apply div_nonpos_of_nonpos_of_nonneg
      · exact_mod_cast h
      · norm_num
  · rw [max_eq_right, max_eq_right h]
    apply div_nonneg
    · exact_mod_cast h
    · norm_num

/-- `roundDiv60` of an exact multiple of 60. -/
theorem roundDiv60_mul (k : Int) : roundDiv60 (60 * k) = k := by
  unfold roundDiv60
  rw [Int.mul_ediv_cancel_left _ (by norm_num), Int.mul_emod_right]
  norm_num

/-- Number of unprocessed requests a user has in the store. -/
def pendingCount (s : DBState) (userId : Int) : Nat :=
  (s.requests.filter (fun r => r.userId == userId && !r.processed)).length

/-- C7: with a pending request the call answers "already_requested" with
`round(max(0, wait - elapsed_seconds/60))` minutes remaining — computed
from that same pending row — and writes nothing; at whole-minute elapsed
times this is exactly `max(0, wait_minutes - elapsed_minutes)`.  With no
pending request exactly one new row is inserted and the call answers
"queued" with the configured wait.  Either way at most one unprocessed
request per user is preserved. -/
theorem request_free_access_spec (s : DBState) (userId now newId : Int) :
    (∀ req, pendingFor s userId = some req →
      requestFreeAccess s userId now newId =
        (.alreadyRequested
          (pythonRound (max 0 ((s.config.waitTimeMinutes : ℚ)
              - ((now - req.requestDate : Int) : ℚ) / 60)))
          s.config.waitTimeMinutes, s)) ∧
    (∀ req m, pendingFor s userId = some req →
      now - req.requestDate = 60 * m →
      requestFreeAccess s userId now newId =
        (.alreadyRequested (max 0 (s.config.waitTimeMinutes - m))
          s.config.waitTimeMinutes, s)) ∧
    (pendingFor s userId = none →
      requestFreeAccess s userId now newId =
        (.queued s.config.waitTimeMinutes,
         { s with requests := s.requests ++
             [{ id := newId, userId := userId, requestDate := now,
                processed := false, approved := false,
                processedDate := none }] })) ∧
    (pendingCount s userId ≤ 1 →
      pendingCount (requestFreeAccess s userId now newId).2 userId ≤ 1) := by
  have hstep : ∀ req, pendingFor s userId = some req →
      requestFreeAccess s userId now newId =
        (.alreadyRequested
          (roundDiv60 (max 0 (60 * s.config.waitTimeMinutes
                                - (now - req.requestDate))))
          s.config.waitTimeMinutes, s) := by
    intro req hreq
    unfold requestFreeAccess
    split
    · next r heq =>
      rw [hreq] at heq
      injection heq with h
      subst h
      rfl
    · next heq =>
      rw [hreq] at heq
      exact Option.noConfusion heq
  have hqueue : pendingFor s userId = none →
      requestFreeAccess s userId now newId =
        (.queued s.config.waitTimeMinutes,
         { s with requests := s.requests ++
             [{ id := newId, userId := userId, requestDate := now,
                processed := false, approved := false,
                processedDate := none }] }) := by
    intro hnone
    unfold requestFreeAccess
    split
    · next r heq =>
      rw [hnone] at heq
      exact Option.noConfusion heq
    · next heq => rfl
  refine ⟨?_, ?_, hqueue, ?_⟩
  · intro req hreq
    rw [hstep req hreq, max_sub_div60, ← roundDiv60_eq_pythonRound]
  · intro req m hreq hm
    rw [hstep req hreq, hm]
    have hfac : max 0 (60 * s.config.waitTimeMinutes - 60 * m) =
        60 * max 0 (s.config.waitTimeMinutes - m) := by
      rcases le_total (s.config.waitTimeMinutes - m) 0 with h | h
      · rw [max_eq_left (by omega), max_eq_left h]
        omega
      · rw [max_eq_right (by omega), max_eq_right h]
        ring
    rw [hfac, roundDiv60_mul]
  · intro hle
    cases hpend : pendingFor s userId with
    | some req =>
      rw [hstep req hpend]
      exact hle
    | none =>
      rw [hqueue hpend]
      have hnil : s.requests.filter
          (fun r => r.userId == userId && !r.processed) = [] := by
        rw [List.filter_eq_nil_iff]
        intro r hr
        have := List.find?_eq_none.mp hpend r hr
        simpa using this
      show (List.filter _ (s.requests ++ [_])).length ≤ 1
      rw [List.filter_append, hnil]
      simp

/-- A store where user 5 has a pending free-channel request from time
1000 and the configured wait is 60 minutes. -/
def w7State : DBState :=
  { config := { vipChannelId := none, freeChannelId := some "-200",
                waitTimeMinutes := 60 },
    tiers := [], tokens := [], subscriptions := [],
    requests := [{ id := 1, userId := 5, requestDate := 1000,
                   processed := false, approved := false,
                   processedDate := none }],
    ranks := [], packs := [], files := [], profiles := [] }

/-- Witness for C7: asking again 10 minutes (600 s) into a 60-minute wait
reports 50 minutes remaining and leaves the store unchanged. -/
theorem request_free_access_spec_witness :
    requestFreeAccess w7State 5 1600 2 =
      (.alreadyRequested (max 0 ((60:Int) - 10)) 60, w7State) :=
  (request_free_access_spec w7State 5 1600 2).2.1
    { id := 1, userId := 5, requestDate := 1000, processed := false,
      approved := false, processedDate := none }
    10 (by decide) (by decide)

/-! ### C8: approving a free-channel request -/

/-- C8: with a pending request on file, approval fails and leaves the
store untouched (the request still unprocessed, eligible for retry) when
the free channel is unconfigured or the invite-link creation/send fails;
only a successful send marks the row processed and approved. -/
theorem approve_request_spec
    (s : DBState) (requestId now : Int) (sendOk : Bool)
    (req : FreeChannelRequest)
    (hreq : s.requests.find? (fun r => r.id == requestId && !r.processed) =
      some req) :
    (configuredChannel s.config.freeChannelId = false →
      approveRequest s requestId now sendOk =
        (.err "Free channel ID not configured", s)) ∧
    (sendOk = false →
      (approveRequest s requestId now sendOk).2 = s ∧
      ∃ msg, (approveRequest s requestId now sendOk).1 = .err msg) ∧
    (configuredChannel s.config.freeChannelId = true → sendOk = true →
      approveRequest s requestId now sendOk =
        (.ok ("Request " ++ toString requestId ++ " approved successfully"),
         { s with requests := markProcessed requestId now s.requests }) ∧
      { req with processed := true, approved := true,
                 processedDate := some now }
        ∈ (approveRequest s requestId now sendOk).2.requests) := by
  have hstep : approveRequest s requestId now sendOk =
      if configuredChannel s.config.freeChannelId = false then
        (.err "Free channel ID not configured", s)
      else if sendOk = false then
        (.err "No se pudo enviar el enlace de invitación", s)
      else
        (.ok ("Request " ++ toString requestId ++ " approved successfully"),
         { s with requests := markProcessed requestId now s.requests }) := by
    unfold approveRequest
    split
    · next heq =>
      rw [hreq] at heq
      exact Option.noConfusion heq
    · next r heq =>
      rfl
  refine ⟨?_, ?_, ?_⟩
  · intro hcfg
    rw [hstep, if_pos hcfg]
  · intro hsend
    rw [hstep]
    by_cases hcfg : configuredChannel s.config.freeChannelId = false
    · rw [if_pos hcfg]
      exact ⟨rfl, _, rfl⟩
    · rw [if_neg hcfg, if_pos hsend]
      exact ⟨rfl, _, rfl⟩
  · intro hcfg hsend
    have hres : approveRequest s requestId now sendOk =
        (.ok ("Request " ++ toString requestId ++ " approved successfully"),
         { s with requests := markProcessed requestId now s.requests }) := by
      rw [hstep, if_neg (by rw [hcfg]; exact Bool.true_eq_false ▸ (by simp)),
        if_neg (by rw [hsend]; simp)]
    refine ⟨hres, ?_⟩
    rw [hres]
    show _ ∈ markProcessed requestId now s.requests
    unfold markProcessed
    exact updated_mem_updateFirst hreq

/-- Witness for C8: with the free channel configured and a successful
send, the pending request of `w7State` is marked processed+approved. -/
theorem approve_request_spec_witness :
    approveRequest w7State 1 2000 true =
      (.ok ("Request " ++ toString (1:Int) ++ " approved successfully"),
       { w7State with requests := markProcessed 1 2000 w7State.requests }) ∧
    ({ id := 1, userId := 5, requestDate := 1000, processed := true,
       approved := true, processedDate := some 2000 } : FreeChannelRequest)
      ∈ (approveRequest w7State 1 2000 true).2.requests :=
  (approve_request_spec w7State 1 2000 true
    { id := 1, userId := 5, requestDate := 1000, processed := false,
      approved := false, processedDate := none }
    (by decide)).2.2 (by decide) rfl

/-! ### C10: referral processing requires an existing referrer profile -/

/-- C10: for a well-formed payload `ref_<id>`, a genuinely new user and a
distinct referrer, `process_referral` still returns `False` and writes
nothing whenever the referrer has no gamification profile. -/
theorem process_referral_requires_referrer_profile
    (s : DBState) (newUserId rid now : Int) (payload : String)
    (h1 : payload.data.take 4 = "ref_".data)
    (h2 : charsToInt? (payload.data.drop 4) = some rid)
    (h3 : s.profiles.find? (fun p => p.userId == newUserId) = none)
    (h4 : newUserId ≠ rid)
    (h5 : s.profiles.find? (fun p => p.userId == rid) = none) :
    processReferral s newUserId payload now = (false, s) := by
  unfold processReferral
  rw [h1]
  simp only [beq_self_eq_true, Bool.not_true, Bool.false_eq_true, if_false]
  split
  · next heq =>
    rfl
  · next r heq =>
    rw [h2] at heq
    injection heq with hr
    subst hr
    split
    · next p hp =>
      rfl
    · next hp =>
      rw [if_neg (by simpa using h4)]
      split
      · rfl
      · rfl

/-- A store where only user 9 has a profile. -/
def w10State : DBState :=
  { config := { vipChannelId := none, freeChannelId := none,
                waitTimeMinutes := 0 },
    tiers := [], tokens := [], subscriptions := [], requests := [],
    ranks := [], packs := [], files := [],
    profiles := [{ userId := 9, points := 0, currentRankId := none,
                   lastInteractionAt := 0 }] }

/-- Witness for C10: `ref_5` from new user 3 fails because user 5 has no
profile, and the store is unchanged. -/
theorem process_referral_requires_referrer_profile_witness :
    processReferral w10State 3 "ref_5" 0 = (false, w10State) :=
  process_referral_requires_referrer_profile w10State 3 5 0 "ref_5"
    (by decide) (by decide) (by decide) (by decide) (by decide)

/-! ### Properties of the rank query `bestRank` -/

theorem bestRank_none {l : List Rank} {pts : Int}
    (h : bestRank l pts = none) : ∀ x ∈ l, ¬ (x.minPoints ≤ pts) := by
  induction l with
  | nil => intro x hx; simp at hx
  | cons a t ih =>
    intro x hx
    unfold bestRank at h
    by_cases ha : a.minPoints ≤ pts
    · rw [if_pos ha] at h
      split at h
      · exact Option.noConfusion h
      · split at h
        · exact Option.noConfusion h
        · exact Option.noConfusion h
    · rw [if_neg ha] at h
      rcases List.mem_cons.mp hx with rfl | hxt
      · exact ha
      · exact ih h x hxt

theorem bestRank_mem {l : List Rank} {pts : Int} {r : Rank}
    (h : bestRank l pts = some r) : r ∈ l ∧ r.minPoints ≤ pts := by
  induction l with
  | nil => simp [bestRank] at h
  | cons a t ih =>
    unfold bestRank at h
    by_cases ha : a.minPoints ≤ pts
    · rw [if_pos ha] at h
      split at h
      · injection h with h1
        subst h1
        exact ⟨List.mem_cons_self a t, ha⟩
      · next b hrest =>
        split at h
        · injection h with h1
          subst h1
          exact ⟨List.mem_cons_self a t, ha⟩
        · injection h with h1
          subst h1
          obtain ⟨hm, hle⟩ := ih hrest
          exact ⟨List.mem_cons_of_mem a hm, hle⟩
    · rw [if_neg ha] at h
      obtain ⟨hm, hle⟩ := ih h
      exact ⟨List.mem_cons_of_mem a hm, hle⟩

theorem bestRank_maximal {l : List Rank} {pts : Int} {r : Rank}
    (h : bestRank l pts = some r) :
    ∀ x ∈ l, x.minPoints ≤ pts → x.minPoints ≤ r.minPoints := by
  induction l generalizing r with
  | nil => simp [bestRank] at h
  | cons a t ih =>
    intro x hx hxle
    unfold bestRank at h
    by_cases ha : a.minPoints ≤ pts
    · rw [if_pos ha] at h
      rcases List.mem_cons.mp hx with rfl | hxt
      · split at h
        · injection h with h1
          exact h1 ▸ le_refl _
        · next b hrest =>
          split at h
          · injection h with h1
            exact h1 ▸ le_refl _
          · next hnlt =>
            injection h with h1
            exact h1 ▸ le_of_not_lt hnlt
      · split at h
        · next hrest =>
          exact absurd hxle (bestRank_none hrest x hxt)
        · next b hrest =>
          have hb := ih hrest x hxt hxle
          split at h
          · next hlt =>
            injection h with h1
            exact h1 ▸ le_trans hb (le_of_lt hlt)
          · injection h with h1
            exact h1 ▸ hb
    · rw [if_neg ha] at h
      rcases List.mem_cons.mp hx with rfl | hxt
      · exact absurd hxle ha
      · exact ih h x hxt hxle

/-! ### Structure of `_check_rank_up` and `add_points` -/

/-- `_check_rank_up` never touches the points or the user id of the
profile. -/
theorem checkRankUp_preserves (s : DBState) (profile : GamificationProfile) :
    (checkRankUp s profile).1.points = profile.points ∧
    (checkRankUp s profile).1.userId = profile.userId := by
  unfold checkRankUp
  split
  · exact ⟨rfl, rfl⟩
  · split
    · exact ⟨rfl, rfl⟩
    · split
      · exact ⟨rfl, rfl⟩
      · exact ⟨rfl, rfl⟩

/-- When some rank qualifies, `_check_rank_up` stores the best
qualifying rank and emits the "rank_up" notification exactly when that
rank differs from the stored one. -/
theorem checkRankUp_spec (s : DBState) (profile : GamificationProfile)
    (r : Rank) (hbest : bestRank s.ranks profile.points = some r) :
    (checkRankUp s profile).1.currentRankId = some r.id ∧
    (({ userId := profile.userId, kind := "rank_up" } : Notification)
        ∈ (checkRankUp s profile).2 ↔ profile.currentRankId ≠ some r.id) := by
  unfold checkRankUp
  split
  · next hnone =>
    rw [hbest] at hnone
    exact Option.noConfusion hnone
  · next newRank hsome =>
    rw [hbest] at hsome
    injection hsome with h1
    subst h1
    split
    · next heq =>
      have heq2 : profile.currentRankId = some r.id := by
        simpa using heq
      refine ⟨heq2, ?_⟩
      simp [heq2]
    · next hne =>
      have hne2 : profile.currentRankId ≠ some r.id := by
        simpa using hne
      refine ⟨?_, ?_⟩
      · split
        · rfl
        · rfl
      · constructor
        · intro _
          exact hne2
        · intro _
          split
          · exact List.mem_cons_self _ _
          · exact List.mem_cons_self _ _

/-- The total the user holds after `add_points(user_id, amount)`. -/
def newTotalPoints (s : DBState) (userId amount : Int) : Int :=
  match s.profiles.find? (fun p => p.userId == userId) with
  | some p => p.points + amount
  | none => amount

/-- The rank id against which `_check_rank_up` compares: the stored one,
or for a profile created during this call the zero-point starting rank. -/
def storedRankId (s : DBState) (userId : Int) : Option Int :=
  match s.profiles.find? (fun p => p.userId == userId) with
  | some p => p.currentRankId
  | none => (zeroRank s.ranks).map (·.id)

/-- C3: after `add_points`, the stored rank is the qualifying rank with
the highest `min_points` threshold (never a lower qualifying one), and
the rank-up side effects fire exactly when that rank differs from the
one stored before the evaluation. -/
theorem add_points_rank
    (s : DBState) (userId amount now : Int) (r : Rank)
    (hbest : bestRank s.ranks (newTotalPoints s userId amount) = some r) :
    ∃ p', (addPoints s userId amount now).1.profiles.find?
        (fun p => p.userId == userId) = some p' ∧
      p'.points = newTotalPoints s userId amount ∧
      p'.currentRankId = some r.id ∧
      r ∈ s.ranks ∧ r.minPoints ≤ newTotalPoints s userId amount ∧
      (∀ x ∈ s.ranks, x.minPoints ≤ newTotalPoints s userId amount →
        x.minPoints ≤ r.minPoints) ∧
      (({ userId := userId, kind := "rank_up" } : Notification)
          ∈ (addPoints s userId amount now).2 ↔
        storedRankId s userId ≠ some r.id) := by
  obtain ⟨hrm, hrle⟩ := bestRank_mem hbest
  have hmax := bestRank_maximal hbest
  cases hfind : s.profiles.find? (fun p => p.userId == userId) with
  | some profile =>
    have htot : newTotalPoints s userId amount = profile.points + amount := by
      unfold newTotalPoints
      rw [hfind]
    have hstored : storedRankId s userId = profile.currentRankId := by
      unfold storedRankId
      rw [hfind]
    have huid : profile.userId = userId := by
      have h := List.find?_some hfind
      simpa using h
    have haddeq1 : (addPoints s userId amount now).1.profiles =
        setProfile userId (checkRankUp s (bumpProfile profile amount now)).1
          s.profiles := by
      unfold addPoints
      rw [hfind]
    have haddeq2 : (addPoints s userId amount now).2 =
        (checkRankUp s (bumpProfile profile amount now)).2 := by
      unfold addPoints
      rw [hfind]
    have hbest2 : bestRank s.ranks (bumpProfile profile amount now).points =
        some r := by
      rw [show (bumpProfile profile amount now).points =
          profile.points + amount from rfl, ← htot]
      exact hbest
    obtain ⟨hcr, hmem_iff⟩ :=
      checkRankUp_spec s (bumpProfile profile amount now) r hbest2
    obtain ⟨hpts, huid2⟩ :=
      checkRankUp_preserves s (bumpProfile profile amount now)
    have hmk : ({ userId := (bumpProfile profile amount now).userId,
                  kind := "rank_up" } : Notification) =
        { userId := userId, kind := "rank_up" } := by
      rw [show (bumpProfile profile amount now).userId = profile.userId
          from rfl, huid]
    rw [hmk] at hmem_iff
    have hcur : (bumpProfile profile amount now).currentRankId =
        profile.currentRankId := rfl
    rw [hcur] at hmem_iff
    have hfind2 : (setProfile userId
        (checkRankUp s (bumpProfile profile amount now)).1
        s.profiles).find? (fun p => p.userId == userId) =
        some (checkRankUp s (bumpProfile profile amount now)).1 := by
      unfold setProfile
      apply find?_updateFirst hfind
      rw [show ((checkRankUp s (bumpProfile profile amount now)).1.userId ==
          userId) = (profile.userId == userId) from by rw [huid2]; rfl, huid]
      exact beq_self_eq_true userId
    refine ⟨(checkRankUp s (bumpProfile profile amount now)).1, ?_, ?_,
      hcr, hrm, hrle, hmax, ?_⟩
    · rw [haddeq1]
      exact hfind2
    · rw [hpts]
      rw [show (bumpProfile profile amount now).points =
          profile.points + amount from rfl, htot]
    · rw [haddeq2, hstored]
      exact hmem_iff
  | none =>
    have htot : newTotalPoints s userId amount = amount := by
      unfold newTotalPoints
      rw [hfind]
    have hstored : storedRankId s userId = (zeroRank s.ranks).map (·.id) := by
      unfold storedRankId
      rw [hfind]
    have haddeq1 : (addPoints s userId amount now).1.profiles =
        s.profiles ++ [(checkRankUp s (freshProfile s userId amount now)).1] := by
      unfold addPoints
      rw [hfind]
    have haddeq2 : (addPoints s userId amount now).2 =
        (checkRankUp s (freshProfile s userId amount now)).2 := by
      unfold addPoints
      rw [hfind]
    have hbest2 : bestRank s.ranks (freshProfile s userId amount now).points =
        some r := by
      rw [show (freshProfile s userId amount now).points = amount from rfl,
        ← htot]
      exact hbest
    obtain ⟨hcr, hmem_iff⟩ :=
      checkRankUp_spec s (freshProfile s userId amount now) r hbest2
    obtain ⟨hpts, huid2⟩ :=
      checkRankUp_preserves s (freshProfile s userId amount now)
    have hmk : ({ userId := (freshProfile s userId amount now).userId,
                  kind := "rank_up" } : Notification) =
        { userId := userId, kind := "rank_up" } := by
      rw [show (freshProfile s userId amount now).userId = userId from rfl]
    rw [hmk] at hmem_iff
    have hcur : (freshProfile s userId amount now).currentRankId =
        (zeroRank s.ranks).map (·.id) := rfl
    rw [hcur] at hmem_iff
    have hfind2 : (s.profiles ++
        [(checkRankUp s (freshProfile s userId amount now)).1]).find?
          (fun p => p.userId == userId) =
        some (checkRankUp s (freshProfile s userId amount now)).1 := by
      rw [find?_append_of_none hfind]
      apply List.find?_cons_of_pos
      rw [show ((checkRankUp s (freshProfile s userId amount now)).1.userId ==
          userId) = (userId == userId) from by rw [huid2]; rfl]
      exact beq_self_eq_true userId
    refine ⟨(checkRankUp s (freshProfile s userId amount now)).1, ?_, ?_,
      hcr, hrm, hrle, hmax, ?_⟩
    · rw [haddeq1]
      exact hfind2
    · rw [hpts]
      rw [show (freshProfile s userId amount now).points = amount from rfl,
        htot]
    · rw [haddeq2, hstored]
      exact hmem_iff

/-- Rank ladder Bronze(0)/Silver(100)/Gold(500) with no rewards and no
profiles yet. -/
def w3State : DBState :=
  { config := { vipChannelId := none, freeChannelId := none,
                waitTimeMinutes := 0 },
    tiers := [], tokens := [], subscriptions := [], requests := [],
    ranks := [{ id := 1, name := "Bronze", minPoints := 0,
                rewardVipDays := 0, rewardContentPackId := none },
              { id := 2, name := "Silver", minPoints := 100,
                rewardVipDays := 0, rewardContentPackId := none },
              { id := 3, name := "Gold", minPoints := 500,
                rewardVipDays := 0, rewardContentPackId := none }],
    packs := [], files := [], profiles := [] }

/-- Witness for C3: a fresh user gaining 150 points in one call lands on
Silver (100 ≤ 150 < 500), not Gold, and the rank-up fires. -/
theorem add_points_rank_witness :
    ∃ p', (addPoints w3State 4 150 1000).1.profiles.find?
        (fun p => p.userId == 4) = some p' ∧
      p'.points = newTotalPoints w3State 4 150 ∧
      p'.currentRankId = some (Rank.mk 2 "Silver" 100 0 none).id ∧
      Rank.mk 2 "Silver" 100 0 none ∈ w3State.ranks ∧
      (Rank.mk 2 "Silver" 100 0 none).minPoints ≤ newTotalPoints w3State 4 150 ∧
      (∀ x ∈ w3State.ranks, x.minPoints ≤ newTotalPoints w3State 4 150 →
        x.minPoints ≤ (Rank.mk 2 "Silver" 100 0 none).minPoints) ∧
      (({ userId := 4, kind := "rank_up" } : Notification)
          ∈ (addPoints w3State 4 150 1000).2 ↔
        storedRankId w3State 4 ≠ some (Rank.mk 2 "Silver" 100 0 none).id) :=
  add_points_rank w3State 4 150 1000 (Rank.mk 2 "Silver" 100 0 none)
    (by decide)

/-! ### C5: VIP-day rewards on rank-up are never delivered -/

/-- Rank ladder where Silver carries a 7-day VIP reward; user 9 sits on
Bronze with an active subscription expiring at time 1000000. -/
def w5State : DBState :=
  { config := { vipChannelId := some "-100", freeChannelId := none,
                waitTimeMinutes := 0 },
    tiers := [], tokens := [],
    subscriptions := [{ userId := 9, role := "vip", joinDate := 0,
                        expiryDate := some 1000000, status := "active",
                        tokenId := none, reminderSent := false }],
    requests := [],
    ranks := [{ id := 1, name := "Bronce", minPoints := 0,
                rewardVipDays := 0, rewardContentPackId := none },
              { id := 2, name := "Plata", minPoints := 100,
                rewardVipDays := 7, rewardContentPackId := none }],
    packs := [], files := [],
    profiles := [{ userId := 9, points := 0, currentRankId := some 1,
                   lastInteractionAt := 0 }] }

/-- C5 at its failing input: user 9 gains 150 points and ranks up onto
Plata, whose `reward_vip_days = 7`; `_deliver_rewards` then calls
`self.subscription_service.add_vip_days`, a method `SubscriptionService`
does not define, so the `AttributeError` aborts delivery (swallowed by
`_check_rank_up`): the rank change is kept, but the subscription is
unchanged — no days are added — and no "vip_reward" notification is
sent; only the "rank_up" notification goes out. -/
theorem deliver_rewards_vip_days_never_added :
    deliverRewards w5State 9 (Rank.mk 2 "Plata" 100 7 none) =
      .error "AttributeError: SubscriptionService has no attribute add_vip_days" ∧
    ((addPoints w5State 9 150 500).1.profiles.find?
        (fun p => p.userId == 9)).map (fun p => p.currentRankId) =
      some (some 2) ∧
    (addPoints w5State 9 150 500).1.subscriptions = w5State.subscriptions ∧
    ¬ (({ userId := 9, kind := "vip_reward" } : Notification)
        ∈ (addPoints w5State 9 150 500).2) ∧
    ({ userId := 9, kind := "rank_up" } : Notification)
      ∈ (addPoints w5State 9 150 500).2 := by
  refine ⟨rfl, ?_, ?_, ?_, ?_⟩ <;> decide

/-! ### C6: the 24-hour daily-claim cooldown -/

/-- `add_points` always leaves a row for the user holding the new
total. -/
theorem addPoints_profile (s : DBState) (userId amount now : Int) :
    ∃ p', (addPoints s userId amount now).1.profiles.find?
        (fun p => p.userId == userId) = some p' ∧
      p'.userId = userId ∧
      p'.points = newTotalPoints s userId amount := by
  cases hfind : s.profiles.find? (fun p => p.userId == userId) with
  | some profile =>
    have htot : newTotalPoints s userId amount = profile.points + amount := by
      unfold newTotalPoints
      rw [hfind]
    have huid : profile.userId = userId := by
      have h := List.find?_some hfind
      simpa using h
    have haddeq1 : (addPoints s userId amount now).1.profiles =
        setProfile userId (checkRankUp s (bumpProfile profile amount now)).1
          s.profiles := by
      unfold addPoints
      rw [hfind]
    obtain ⟨hpts, huid2⟩ :=
      checkRankUp_preserves s (bumpProfile profile amount now)
    have huid3 : (checkRankUp s (bumpProfile profile amount now)).1.userId =
        userId := by
      rw [huid2, show (bumpProfile profile amount now).userId =
        profile.userId from rfl, huid]
    refine ⟨(checkRankUp s (bumpProfile profile amount now)).1, ?_, huid3, ?_⟩
    · rw [haddeq1]
      unfold setProfile
      apply find?_updateFirst hfind
      rw [huid3]
      exact beq_self_eq_true userId
    · rw [hpts, show (bumpProfile profile amount now).points =
        profile.points + amount from rfl, htot]
  | none =>
    have htot : newTotalPoints s userId amount = amount := by
      unfold newTotalPoints
      rw [hfind]
    have haddeq1 : (addPoints s userId amount now).1.profiles =
        s.profiles ++ [(checkRankUp s (freshProfile s userId amount now)).1] := by
      unfold addPoints
      rw [hfind]
    obtain ⟨hpts, huid2⟩ :=
      checkRankUp_preserves s (freshProfile s userId amount now)
    have huid3 : (checkRankUp s (freshProfile s userId amount now)).1.userId =
        userId := by
      rw [huid2]
      rfl
    refine ⟨(checkRankUp s (freshProfile s userId amount now)).1, ?_, huid3, ?_⟩
    · rw [haddeq1, find?_append_of_none hfind]
      apply List.find?_cons_of_pos
      rw [huid3]
      exact beq_self_eq_true userId
    · rw [hpts, show (freshProfile s userId amount now).points = amount
        from rfl, htot]

/-- C6 at its failing input: the spec's 24-hour cooldown is logic the
program never executes.  The read of `profile.last_daily_claim`
(gamification_service.py:565) raises `AttributeError` on the unmapped
attribute, so every call — first or repeat, inside or outside any
window — returns the `{'success': False, 'error': ...}` dictionary:
never the `HH:MM:SS` cooldown dictionary, never a point grant.  The
repo's own `tests/test_gamification.py::test_daily_cooldown` expects
the claimed behaviour, so the claim is the intent and the unmapped
attribute the slip. -/
theorem claim_daily_reward_always_errors (s : DBState) (userId now : Int) :
    (claimDailyReward s userId now).1 =
      .err "AttributeError: GamificationProfile object has no attribute last_daily_claim" ∧
    (∀ r, (claimDailyReward s userId now).1 ≠ .cooldown r) ∧
    (∀ pts total, (claimDailyReward s userId now).1 ≠ .ok pts total) := by
  refine ⟨?_, ?_, ?_⟩
  · rfl
  · intro r
    simp [claimDailyReward]
  · intro pts total
    simp [claimDailyReward]

/-- A store where user 6 has a profile with 20 points. -/
def w6State : DBState :=
  { config := { vipChannelId := none, freeChannelId := none,
                waitTimeMinutes := 0 },
    tiers := [], tokens := [], subscriptions := [], requests := [],
    ranks := [{ id := 1, name := "Bronze", minPoints := 0,
                rewardVipDays := 0, rewardContentPackId := none }],
    packs := [], files := [],
    profiles := [{ userId := 6, points := 20, currentRankId := some 1,
                   lastInteractionAt := 0 }] }

/-- Witness for C6 at a concrete input: the daily claim of user 6 at
`t = 86340` returns the `AttributeError` dictionary, not a cooldown and
not a grant. -/
theorem claim_daily_reward_always_errors_witness :
    (claimDailyReward w6State 6 86340).1 =
      .err "AttributeError: GamificationProfile object has no attribute last_daily_claim" ∧
    (claimDailyReward w6State 6 86340).1 ≠ .cooldown "00:01:00" ∧
    (claimDailyReward w6State 6 86340).1 ≠ .ok 50 70 :=
  ⟨(claim_daily_reward_always_errors w6State 6 86340).1,
   (claim_daily_reward_always_errors w6State 6 86340).2.1 "00:01:00",
   (claim_daily_reward_always_errors w6State 6 86340).2.2 50 70⟩

end SubBot
